import Mathlib

/-!
Verification of the KO-Stock inventory management backend.

This file gives a shallow embedding, in Lean 4, of the parts of the Flask
backend that the verified properties talk about:

* the startup environment validation (`validate_startup_environment` in
  `stock-management-backend/src/config/database.py`);
* the database connection retry loop with exponential backoff
  (`DatabaseConnectionManager.wait_for_database` in the same file);
* the stock transfer route (`stock_transfer` in
  `src/routes/stock_transaction.py`);
* the daily count route (`record_daily_count` in
  `src/routes/daily_count.py`) together with the SQLAlchemy models it is
  paired with (`src/models/daily_count.py`, `src/models/stock_transaction.py`,
  `src/models/inventory.py`);
* the product creation route (`create_product` in `src/routes/product.py`);
* the `to_dict` serializers of the data-model entities.

Database tables are embedded as Lean lists of row structures, a handler as a
function from a state and a request to a new state and a response; a Python
exception escaping a handler is an `Except.error`.  Python integers are `Int`,
strings are `String`, dates are explicit structures rendered by `isoformat`
functions.
-/

namespace KOStock

/-! ### Python-level error values

A Python exception that a route handler can raise while processing a request:
a `KeyError` from a missing JSON field, or a `TypeError` from the SQLAlchemy
declarative constructor or from arithmetic on `None`. -/

inductive PyError where
  | keyError (key : String)
  | typeError (msg : String)
deriving DecidableEq

/-- Reading a required JSON field, as Python's `data['name']`: raises
`KeyError` when the key is absent. -/
def requireField {α : Type} (name : String) : Option α → Except PyError α
  | some v => .ok v
  | none => .error (.keyError name)

/-! ### Environment validation (`validate_startup_environment`)

From `Documents/stock-management-system/stock-management-backend/src/config/database.py`.
The environment is `os.getenv`: a partial map from variable names to strings. -/

/-- The process environment as seen by `os.getenv`: `none` when the variable
is unset. -/
def Env : Type := String → Option String

/-- The `required_vars` list of `validate_startup_environment`. -/
def required_vars : List String := ["SECRET_KEY", "POSTGRES_PASSWORD"]

/-- One iteration of the `for var in required_vars` loop of
`validate_startup_environment`: `value = os.getenv(var)`; `if not value`
appends to `missing_vars` (Python's `not value` is true for an unset variable
and for the empty string); otherwise the two `elif` length checks append to
`invalid_vars`. -/
def validateVarStep (env : Env) (acc : List String × List String) (var : String) :
    List String × List String :=
  let (missing_vars, invalid_vars) := acc
  match env var with
  | none => (missing_vars ++ [var], invalid_vars)
  | some value =>
    if value.isEmpty then
      (missing_vars ++ [var], invalid_vars)
    else if var == "SECRET_KEY" && value.length < 32 then
      (missing_vars, invalid_vars ++ [var])
    else if var == "POSTGRES_PASSWORD" && value.length < 8 then
      (missing_vars, invalid_vars ++ [var])
    else
      (missing_vars, invalid_vars)

/-- `validate_startup_environment` from `src/config/database.py`: walks
`required_vars`, collecting `missing_vars` and `invalid_vars`; returns
`False` when `missing_vars or invalid_vars` is truthy, `True` otherwise. -/
def validate_startup_environment (env : Env) : Bool :=
  let acc := required_vars.foldl (validateVarStep env) ([], [])
  if acc.1.isEmpty && acc.2.isEmpty then true else false

/-! ### Database connection retry loop (`wait_for_database`)

From `DatabaseConnectionManager.wait_for_database` in
`Documents/stock-management-system/stock-management-backend/src/config/database.py`.
The loop runs `for attempt in range(1, self.max_retries + 1)`; a connection
attempt either succeeds, raises `OperationalError`/`DatabaseError` (handled
with exponential backoff), or raises some other exception (handled with
linear backoff).  Delays are rationals; the fractional value `time.time() % 1`
used for jitter is abstracted as a per-attempt parameter in `[0, 1)`. -/

/-- Outcome of one connection attempt inside `wait_for_database`. -/
inductive AttemptResult where
  | success
  | dbError
  | otherError
deriving DecidableEq

/-- Constructor default `max_retries: int = 10` of `DatabaseConnectionManager`. -/
def defaultMaxRetries : Nat := 10

/-- Constructor default `retry_delay: float = 1.0` of `DatabaseConnectionManager`. -/
def defaultRetryDelay : ℚ := 1

/-- The backoff delay computed in the `except (OperationalError, DatabaseError)`
branch: `base_delay = retry_delay * (2 ** (attempt - 1))`;
`jitter = base_delay * 0.1 * (time.time() % 1)`;
`delay = min(base_delay + jitter, 60)`. -/
def backoffDelay (retry_delay : ℚ) (attempt : Nat) (jitterFrac : ℚ) : ℚ :=
  let base_delay := retry_delay * 2 ^ (attempt - 1)
  let jitter := base_delay * (1 / 10) * jitterFrac
  min (base_delay + jitter) 60

/-- The linear delay computed in the generic `except Exception` branch:
`delay = min(self.retry_delay * attempt, 30)`. -/
def linearDelay (retry_delay : ℚ) (attempt : Nat) : ℚ :=
  min (retry_delay * attempt) 30

/-- The body of the `for attempt in range(1, max_retries + 1)` loop of
`wait_for_database`, over the remaining attempt numbers.  Returns the result
of the function together with the list of `time.sleep` delays performed, in
order.  A successful attempt returns `True` immediately; a failing attempt at
`attempt == max_retries` returns `False` without sleeping; any other failing
attempt sleeps for its backoff delay and continues; falling off the end of
the loop returns `False`. -/
def waitLoop (max_retries : Nat) (retry_delay : ℚ) (attemptResult : Nat → AttemptResult)
    (jitterFrac : Nat → ℚ) : List Nat → List ℚ → Bool × List ℚ
  | [], sleeps => (false, sleeps)
  | attempt :: rest, sleeps =>
    match attemptResult attempt with
    | .success => (true, sleeps)
    | .dbError =>
      if attempt = max_retries then (false, sleeps)
      else
        waitLoop max_retries retry_delay attemptResult jitterFrac rest
          (sleeps ++ [backoffDelay retry_delay attempt (jitterFrac attempt)])
    | .otherError =>
      if attempt = max_retries then (false, sleeps)
      else
        waitLoop max_retries retry_delay attemptResult jitterFrac rest
          (sleeps ++ [linearDelay retry_delay attempt])

/-- `wait_for_database`: run the attempts `1, ..., max_retries` in order. -/
def wait_for_database (max_retries : Nat) (retry_delay : ℚ)
    (attemptResult : Nat → AttemptResult) (jitterFrac : Nat → ℚ) : Bool × List ℚ :=
  waitLoop max_retries retry_delay attemptResult jitterFrac
    ((List.range max_retries).map (· + 1)) []

/-! ### Inventory rows and the stock transfer route

`Inventory` (from `src/models/inventory.py`) keeps one `quantity` per
`(product_id, location_id)` pair, with a `UniqueConstraint` on that pair.
The stock transfer handler is `stock_transfer` in
`Documents/stock-management-system/stock-management-backend/src/routes/stock_transaction.py`. -/

/-- A row of the `inventory` table: `quantity` plus the two foreign keys.
The table declares `UniqueConstraint('product_id', 'location_id')`. -/
structure InventoryRow where
  product_id : Nat
  location_id : Nat
  quantity : Int
deriving DecidableEq

/-- Uniqueness constraint of the `inventory` table: no two rows share the
`(product_id, location_id)` pair. -/
def UniqueInv (inv : List InventoryRow) : Prop :=
  inv.Pairwise (fun a b => a.product_id ≠ b.product_id ∨ a.location_id ≠ b.location_id)

instance (inv : List InventoryRow) : Decidable (UniqueInv inv) := by
  unfold UniqueInv; infer_instance

/-- `Inventory.query.filter_by(product_id=p, location_id=l).first()`. -/
def findInventory (inv : List InventoryRow) (p l : Nat) : Option InventoryRow :=
  inv.find? (fun r => r.product_id == p && r.location_id == l)

/-- Setting the `quantity` attribute of the (unique) inventory row for
`(p, l)`: the ORM-level assignment `row.quantity = q`. -/
def updateInventory (inv : List InventoryRow) (p l : Nat) (q : Int) : List InventoryRow :=
  inv.map (fun r => if r.product_id == p && r.location_id == l then { r with quantity := q } else r)

/-- Modelled from the spec: the `StockTransaction` model file of the
`Documents/stock-management-system` tree is not under `src/` (only its route
file, which constructs `StockTransaction` with the keyword arguments
`product_id`, `location_id`, `transaction_type`, `quantity`, `supplier_id`,
`reference_id` and `notes`, is).  The spec describes it as a standard
relational entity with simple foreign keys, so it is modelled as a row type
with exactly the fields its callers pass.  `reference_id` is recorded as
constructed: `transfer_in` is built with `reference_id=transfer_out.id`
before any flush, when `transfer_out.id` is still `None`. -/
structure TransferTxRow where
  product_id : Nat
  location_id : Nat
  transaction_type : String
  quantity : Int
  reference_id : Option Nat
  notes : String
deriving DecidableEq

/-- The database state the stock transfer route touches. -/
structure TransferState where
  inventory : List InventoryRow
  transactions : List TransferTxRow
deriving DecidableEq

/-- Request body of `POST /stock-transfer` (all four fields are read with
`data[...]`, so the route assumes they are present). -/
structure TransferRequest where
  from_location_id : Nat
  to_location_id : Nat
  product_id : Nat
  quantity : Int
  notes : Option String
deriving DecidableEq

/-- Result of the stock transfer handler: the state after the request and
the HTTP status, or a JSON error body with its status. -/
inductive TransferResult where
  | ok (st : TransferState) (status : Nat)
  | err (st : TransferState) (status : Nat) (error : String)
deriving DecidableEq

/-- The `stock_transfer` handler from `src/routes/stock_transaction.py`:
look up the source inventory row; when it is missing or its quantity is
below the requested quantity, answer 400 `Insufficient stock`; otherwise add
a `transfer_out` and a `transfer_in` transaction, decrement the source row,
and increment (or create) the destination row, answering 201. -/
def stock_transfer (st : TransferState) (req : TransferRequest) : TransferResult :=
  match findInventory st.inventory req.product_id req.from_location_id with
  | none => .err st 400 "Insufficient stock"
  | some source_inventory =>
    if source_inventory.quantity < req.quantity then
      .err st 400 "Insufficient stock"
    else
      let transfer_out : TransferTxRow :=
        { product_id := req.product_id
          location_id := req.from_location_id
          transaction_type := "transfer_out"
          quantity := -req.quantity
          reference_id := none
          notes := req.notes.getD ("Transfer to location " ++ toString req.to_location_id) }
      let transfer_in : TransferTxRow :=
        { product_id := req.product_id
          location_id := req.to_location_id
          transaction_type := "transfer_in"
          quantity := req.quantity
          reference_id := none
          notes := req.notes.getD ("Transfer from location " ++ toString req.from_location_id) }
      let transactions := st.transactions ++ [transfer_out, transfer_in]
      let inv1 := updateInventory st.inventory req.product_id req.from_location_id
        (source_inventory.quantity - req.quantity)
      let inventory :=
        match findInventory inv1 req.product_id req.to_location_id with
        | none =>
          inv1 ++ [{ product_id := req.product_id
                     location_id := req.to_location_id
                     quantity := req.quantity }]
        | some dest_inventory =>
          updateInventory inv1 req.product_id req.to_location_id
            (dest_inventory.quantity + req.quantity)
      .ok { inventory := inventory, transactions := transactions } 201

/-- Quantity of product `p` at location `l`: the sum of the quantities of the
rows for `(p, l)` (the single row's quantity under the uniqueness constraint,
`0` when the row is absent). -/
def qtyOfList (inv : List InventoryRow) (p l : Nat) : Int :=
  (inv.map (fun r => if r.product_id == p && r.location_id == l then r.quantity else 0)).sum

/-- Total quantity of product `p` over all locations. -/
def totalQtyList (inv : List InventoryRow) (p : Nat) : Int :=
  (inv.map (fun r => if r.product_id == p then r.quantity else 0)).sum

/-- Quantity of product `p` at location `l` in a transfer state. -/
def TransferState.qtyOf (st : TransferState) (p l : Nat) : Int :=
  qtyOfList st.inventory p l

/-- Total quantity of product `p` over all locations in a transfer state. -/
def TransferState.totalQty (st : TransferState) (p : Nat) : Int :=
  totalQtyList st.inventory p

/-! ### Lemmas about inventory quantities -/

lemma qtyOfList_cons (r : InventoryRow) (inv : List InventoryRow) (p l : Nat) :
    qtyOfList (r :: inv) p l
      = (if r.product_id == p && r.location_id == l then r.quantity else 0)
        + qtyOfList inv p l := by
  simp [qtyOfList]

lemma totalQtyList_cons (r : InventoryRow) (inv : List InventoryRow) (p : Nat) :
    totalQtyList (r :: inv) p
      = (if r.product_id == p then r.quantity else 0) + totalQtyList inv p := by
  simp [totalQtyList]

lemma qtyOfList_append (inv₁ inv₂ : List InventoryRow) (p l : Nat) :
    qtyOfList (inv₁ ++ inv₂) p l = qtyOfList inv₁ p l + qtyOfList inv₂ p l := by
  simp [qtyOfList]

lemma totalQtyList_append (inv₁ inv₂ : List InventoryRow) (p : Nat) :
    totalQtyList (inv₁ ++ inv₂) p = totalQtyList inv₁ p + totalQtyList inv₂ p := by
  simp [totalQtyList]

lemma qtyOfList_eq_zero (inv : List InventoryRow) (p l : Nat)
    (h : ∀ r ∈ inv, ¬(r.product_id = p ∧ r.location_id = l)) :
    qtyOfList inv p l = 0 := by
  induction inv with
  | nil => simp [qtyOfList]
  | cons r rest ih =>
    rw [qtyOfList_cons, if_neg, ih fun s hs => h s (List.mem_cons_of_mem r hs)]
    · ring
    · simpa using h r (List.mem_cons_self r rest)

lemma findInventory_eq_none (inv : List InventoryRow) (p l : Nat)
    (h : findInventory inv p l = none) :
    ∀ r ∈ inv, ¬(r.product_id = p ∧ r.location_id = l) := by
  intro r hr
  have := List.find?_eq_none.mp h r hr
  simpa using this

lemma find?_matches (inv : List InventoryRow) (p l : Nat) (r : InventoryRow)
    (h : findInventory inv p l = some r) :
    r.product_id = p ∧ r.location_id = l := by
  have := List.find?_some h
  simpa using this

lemma findInventory_mem (inv : List InventoryRow) (p l : Nat) (r : InventoryRow)
    (h : findInventory inv p l = some r) : r ∈ inv :=
  List.mem_of_find?_eq_some h

lemma qtyOfList_eq_of_find (inv : List InventoryRow) (p l : Nat) (r : InventoryRow)
    (hu : UniqueInv inv) (h : findInventory inv p l = some r) :
    qtyOfList inv p l = r.quantity := by
  induction inv with
  | nil => simp [findInventory] at h
  | cons s rest ih =>
    rw [qtyOfList_cons]
    rw [findInventory, List.find?_cons] at h
    by_cases hs : (s.product_id == p && s.location_id == l) = true
    · simp only [hs, cond_true] at h
      obtain rfl : s = r := by injection h
      obtain ⟨hp, hl⟩ : s.product_id = p ∧ s.location_id = l := by simpa using hs
      have hz : qtyOfList rest p l = 0 := by
        refine qtyOfList_eq_zero rest p l fun t ht hmatch => ?_
        have := (List.pairwise_cons.mp hu).1 t ht
        rcases this with hne | hne
        · exact hne (hp.trans hmatch.1.symm)
        · exact hne (hl.trans hmatch.2.symm)
      rw [if_pos hs, hz]; ring
    · simp only [Bool.not_eq_true] at hs
      simp only [hs, cond_false] at h
      rw [if_neg (by simp [hs])]
      have := ih (List.pairwise_cons.mp hu).2 h
      rw [this]; ring

lemma qtyOfList_update_other (inv : List InventoryRow) (p l p₂ l₂ : Nat) (q : Int)
    (h : ¬(p₂ = p ∧ l₂ = l)) :
    qtyOfList (updateInventory inv p l q) p₂ l₂ = qtyOfList inv p₂ l₂ := by
  induction inv with
  | nil => simp [qtyOfList, updateInventory]
  | cons r rest ih =>
    rw [updateInventory, List.map_cons]
    rw [show (List.map (fun r => if r.product_id == p && r.location_id == l
        then { r with quantity := q } else r) rest) = updateInventory rest p l q from rfl]
    by_cases hr : (r.product_id == p && r.location_id == l) = true
    · rw [if_pos hr, qtyOfList_cons, qtyOfList_cons, ih]
      obtain ⟨hp, hl⟩ : r.product_id = p ∧ r.location_id = l := by simpa using hr
      have hno : ¬(r.product_id = p₂ ∧ r.location_id = l₂) := by
        intro hmatch
        exact h ⟨hmatch.1.symm.trans hp, hmatch.2.symm.trans hl⟩
      rw [if_neg (by simpa using hno), if_neg (by simpa using hno)]
    · rw [if_neg hr, qtyOfList_cons, qtyOfList_cons, ih]

lemma qtyOfList_update_self (inv : List InventoryRow) (p l : Nat) (q : Int)
    (r : InventoryRow) (hu : UniqueInv inv) (h : findInventory inv p l = some r) :
    qtyOfList (updateInventory inv p l q) p l = q := by
  induction inv with
  | nil => simp [findInventory] at h
  | cons s rest ih =>
    rw [updateInventory, List.map_cons]
    rw [show (List.map (fun r => if r.product_id == p && r.location_id == l
        then { r with quantity := q } else r) rest) = updateInventory rest p l q from rfl]
    rw [findInventory, List.find?_cons] at h
    by_cases hs : (s.product_id == p && s.location_id == l) = true
    · rw [if_pos hs, qtyOfList_cons]
      obtain ⟨hp, hl⟩ : s.product_id = p ∧ s.location_id = l := by simpa using hs
      have hnone : ∀ t ∈ updateInventory rest p l q, ¬(t.product_id = p ∧ t.location_id = l) := by
        intro t ht hmatch
        rw [updateInventory, List.mem_map] at ht
        obtain ⟨t₀, ht₀, hteq⟩ := ht
        have hids : t.product_id = t₀.product_id ∧ t.location_id = t₀.location_id := by
          by_cases hc : (t₀.product_id == p && t₀.location_id == l) = true
          · rw [if_pos hc] at hteq; cases hteq; exact ⟨rfl, rfl⟩
          · rw [if_neg hc] at hteq; cases hteq; exact ⟨rfl, rfl⟩
        have := (List.pairwise_cons.mp hu).1 t₀ ht₀
        rcases this with hne | hne
        · exact hne (hp.trans (hids.1.symm.trans hmatch.1).symm)
        · exact hne (hl.trans (hids.2.symm.trans hmatch.2).symm)
      rw [qtyOfList_eq_zero _ _ _ hnone, if_pos (by simpa using And.intro hp hl)]
      ring
    · simp only [Bool.not_eq_true] at hs
      simp only [hs, cond_false] at h
      rw [if_neg (by simp [hs]), qtyOfList_cons, if_neg (by simp [hs])]
      have := ih (List.pairwise_cons.mp hu).2 h
      rw [this]; ring

lemma totalQtyList_update (inv : List InventoryRow) (p l : Nat) (q : Int)
    (r : InventoryRow) (hu : UniqueInv inv) (h : findInventory inv p l = some r) :
    totalQtyList (updateInventory inv p l q) p = totalQtyList inv p - r.quantity + q := by
  induction inv with
  | nil => simp [findInventory] at h
  | cons s rest ih =>
    rw [updateInventory, List.map_cons]
    rw [show (List.map (fun r => if r.product_id == p && r.location_id == l
        then { r with quantity := q } else r) rest) = updateInventory rest p l q from rfl]
    rw [findInventory, List.find?_cons] at h
    by_cases hs : (s.product_id == p && s.location_id == l) = true
    · rw [if_pos hs, totalQtyList_cons, totalQtyList_cons]
      simp only [hs, cond_true] at h
      obtain rfl : s = r := by injection h
      obtain ⟨hp, hl⟩ : s.product_id = p ∧ s.location_id = l := by simpa using hs
      have hnone : ∀ t ∈ rest, ¬((t.product_id == p && t.location_id == l) = true) := by
        intro t ht hmatch
        obtain ⟨hp₂, hl₂⟩ : t.product_id = p ∧ t.location_id = l := by simpa using hmatch
        have := (List.pairwise_cons.mp hu).1 t ht
        rcases this with hne | hne
        · exact hne (hp.trans hp₂.symm)
        · exact hne (hl.trans hl₂.symm)
      have hid : updateInventory rest p l q = rest := by
        rw [updateInventory]
        have hcong : ∀ t ∈ rest, (if t.product_id == p && t.location_id == l
            then { t with quantity := q } else t) = t := by
          intro t ht
          rw [if_neg (hnone t ht)]
        rw [List.map_congr_left hcong]
        exact List.map_id' rest
      have hrest : totalQtyList (updateInventory rest p l q) p = totalQtyList rest p := by
        rw [hid]
      rw [hrest, if_pos (by simpa using hp), if_pos (by simpa using hp)]
      ring
    · simp only [Bool.not_eq_true] at hs
      simp only [hs, cond_false] at h
      rw [if_neg (by simp [hs]), totalQtyList_cons, totalQtyList_cons]
      have := ih (List.pairwise_cons.mp hu).2 h
      rw [this]; ring

lemma findInventory_update_other (inv : List InventoryRow) (p l p₂ l₂ : Nat) (q : Int)
    (h : ¬(p₂ = p ∧ l₂ = l)) :
    findInventory (updateInventory inv p l q) p₂ l₂ = findInventory inv p₂ l₂ := by
  induction inv with
  | nil => simp [findInventory, updateInventory]
  | cons r rest ih =>
    rw [updateInventory, List.map_cons]
    rw [show (List.map (fun r => if r.product_id == p && r.location_id == l
        then { r with quantity := q } else r) rest) = updateInventory rest p l q from rfl]
    by_cases hr : (r.product_id == p && r.location_id == l) = true
    · obtain ⟨hp, hl⟩ : r.product_id = p ∧ r.location_id = l := by simpa using hr
      have hno : ¬(r.product_id = p₂ ∧ r.location_id = l₂) := by
        intro hmatch
        exact h ⟨hmatch.1.symm.trans hp, hmatch.2.symm.trans hl⟩
      rw [if_pos hr, findInventory, List.find?_cons, findInventory, List.find?_cons]
      have hc₁ : (r.product_id == p₂ && r.location_id == l₂) = false := by simpa using hno
      simp only [hc₁, cond_false]
      exact ih
    · rw [if_neg hr, findInventory, List.find?_cons, findInventory, List.find?_cons]
      by_cases hc : (r.product_id == p₂ && r.location_id == l₂) = true
      · simp only [hc, cond_true]
      · simp only [Bool.not_eq_true] at hc
        simp only [hc, cond_false]
        exact ih

lemma uniqueInv_update (inv : List InventoryRow) (p l : Nat) (q : Int)
    (hu : UniqueInv inv) : UniqueInv (updateInventory inv p l q) := by
  refine List.Pairwise.map _ ?_ hu
  intro a b hab
  have ha : (if a.product_id == p && a.location_id == l
      then { a with quantity := q } else a).product_id = a.product_id ∧
      (if a.product_id == p && a.location_id == l
      then { a with quantity := q } else a).location_id = a.location_id := by
    by_cases hc : (a.product_id == p && a.location_id == l) = true
    · rw [if_pos hc]; exact ⟨rfl, rfl⟩
    · rw [if_neg hc]; exact ⟨rfl, rfl⟩
  have hb : (if b.product_id == p && b.location_id == l
      then { b with quantity := q } else b).product_id = b.product_id ∧
      (if b.product_id == p && b.location_id == l
      then { b with quantity := q } else b).location_id = b.location_id := by
    by_cases hc : (b.product_id == p && b.location_id == l) = true
    · rw [if_pos hc]; exact ⟨rfl, rfl⟩
    · rw [if_neg hc]; exact ⟨rfl, rfl⟩
  rw [ha.1, ha.2, hb.1, hb.2]
  exact hab

/-- C2: a `POST /stock-transfer` request whose source location has no
inventory row for the product, or whose source row holds strictly less than
the requested quantity, is answered with status 400 and the JSON error
`Insufficient stock`, and the database state is left unchanged: no
`StockTransaction` row is created and no inventory quantity is modified. -/
theorem stock_transfer_insufficient_stock
    (st : TransferState) (req : TransferRequest)
    (h : findInventory st.inventory req.product_id req.from_location_id = none ∨
      ∃ src, findInventory st.inventory req.product_id req.from_location_id = some src ∧
        src.quantity < req.quantity) :
    stock_transfer st req = .err st 400 "Insufficient stock" := by
  rcases h with hnone | ⟨src, hsome, hlt⟩
  · simp only [stock_transfer, hnone]
  · simp only [stock_transfer, hsome]
    rw [if_pos hlt]

/-- Witness for `stock_transfer_insufficient_stock`: a concrete state with a
source row of quantity 3 and a request for quantity 5. -/
theorem stock_transfer_insufficient_stock_witness :
    stock_transfer ⟨[⟨1, 1, 3⟩], []⟩ ⟨1, 2, 1, 5, none⟩
      = .err ⟨[⟨1, 1, 3⟩], []⟩ 400 "Insufficient stock" :=
  stock_transfer_insufficient_stock _ _ (Or.inr ⟨⟨1, 1, 3⟩, by decide, by decide⟩)

/-- C4: a successful `POST /stock-transfer` of quantity `q` decreases the
source location's inventory quantity by exactly `q`, increases the
destination location's quantity by exactly `q` (creating the destination row
with quantity `q` when it was absent), and leaves the total quantity of the
product over all locations unchanged. -/
theorem stock_transfer_conserves_total_quantity
    (st : TransferState) (req : TransferRequest) (st' : TransferState)
    (hu : UniqueInv st.inventory)
    (hne : req.from_location_id ≠ req.to_location_id)
    (hok : stock_transfer st req = .ok st' 201) :
    st'.qtyOf req.product_id req.from_location_id
      = st.qtyOf req.product_id req.from_location_id - req.quantity ∧
    st'.qtyOf req.product_id req.to_location_id
      = st.qtyOf req.product_id req.to_location_id + req.quantity ∧
    st'.totalQty req.product_id = st.totalQty req.product_id ∧
    (findInventory st.inventory req.product_id req.to_location_id = none →
      ∃ r ∈ st'.inventory, r.product_id = req.product_id ∧
        r.location_id = req.to_location_id ∧ r.quantity = req.quantity) := by
  rcases hfind : findInventory st.inventory req.product_id req.from_location_id with _ | src
  · simp only [stock_transfer, hfind] at hok
    exact TransferResult.noConfusion hok
  · simp only [stock_transfer, hfind] at hok
    by_cases hlt : src.quantity < req.quantity
    · rw [if_pos hlt] at hok
      simp at hok
    · rw [if_neg hlt] at hok
      have hfromne : ¬(req.product_id = req.product_id ∧
          req.to_location_id = req.from_location_id) :=
        fun hc => hne hc.2.symm
      have htone : ¬(req.product_id = req.product_id ∧
          req.from_location_id = req.to_location_id) :=
        fun hc => hne hc.2
      rcases hdest : findInventory
          (updateInventory st.inventory req.product_id req.from_location_id
            (src.quantity - req.quantity))
          req.product_id req.to_location_id with _ | dest
      · simp only [hdest] at hok
        injection hok with hst _
        subst hst
        have hq1 : st.qtyOf req.product_id req.from_location_id = src.quantity :=
          qtyOfList_eq_of_find _ _ _ _ hu hfind
        have hup1 : qtyOfList
            (updateInventory st.inventory req.product_id req.from_location_id
              (src.quantity - req.quantity)) req.product_id req.from_location_id
            = src.quantity - req.quantity :=
          qtyOfList_update_self _ _ _ _ _ hu hfind
        have hdest₀ : findInventory st.inventory req.product_id req.to_location_id = none := by
          rw [← findInventory_update_other st.inventory req.product_id req.from_location_id
            req.product_id req.to_location_id (src.quantity - req.quantity) hfromne]
          exact hdest
        have hto₀ : st.qtyOf req.product_id req.to_location_id = 0 :=
          qtyOfList_eq_zero _ _ _ (findInventory_eq_none _ _ _ hdest₀)
        have hto₁ : qtyOfList
            (updateInventory st.inventory req.product_id req.from_location_id
              (src.quantity - req.quantity)) req.product_id req.to_location_id = 0 := by
          rw [qtyOfList_update_other _ _ _ _ _ _ hfromne]
          exact hto₀
        have htot₁ : totalQtyList
            (updateInventory st.inventory req.product_id req.from_location_id
              (src.quantity - req.quantity)) req.product_id
            = totalQtyList st.inventory req.product_id - req.quantity := by
          rw [totalQtyList_update _ _ _ _ _ hu hfind]
          ring
        refine ⟨?_, ?_, ?_, ?_⟩
        · show qtyOfList _ _ _ = _
          rw [qtyOfList_append, hup1, hq1]
          have : qtyOfList [⟨req.product_id, req.to_location_id, req.quantity⟩]
              req.product_id req.from_location_id = 0 := by
            rw [qtyOfList_cons]
            rw [if_neg (by simpa using hfromne)]
            simp [qtyOfList]
          rw [this]
          ring
        · show qtyOfList _ _ _ = _
          rw [qtyOfList_append, hto₁, hto₀]
          have : qtyOfList [⟨req.product_id, req.to_location_id, req.quantity⟩]
              req.product_id req.to_location_id = req.quantity := by
            rw [qtyOfList_cons]
            rw [if_pos (by simp)]
            simp [qtyOfList]
          rw [this]
        · show totalQtyList _ _ = totalQtyList st.inventory req.product_id
          rw [totalQtyList_append, htot₁]
          have : totalQtyList [⟨req.product_id, req.to_location_id, req.quantity⟩]
              req.product_id = req.quantity := by
            rw [totalQtyList_cons]
            rw [if_pos (by simp)]
            simp [totalQtyList]
          rw [this]
          ring
        · intro _
          exact ⟨⟨req.product_id, req.to_location_id, req.quantity⟩,
            List.mem_append_right _ (List.mem_singleton.mpr rfl), rfl, rfl, rfl⟩
      · simp only [hdest] at hok
        injection hok with hst _
        subst hst
        have hu₁ : UniqueInv (updateInventory st.inventory req.product_id
            req.from_location_id (src.quantity - req.quantity)) :=
          uniqueInv_update _ _ _ _ hu
        have hdest₀ : findInventory st.inventory req.product_id req.to_location_id
            = some dest := by
          rw [← findInventory_update_other st.inventory req.product_id req.from_location_id
            req.product_id req.to_location_id (src.quantity - req.quantity) hfromne]
          exact hdest
        have hq1 : st.qtyOf req.product_id req.from_location_id = src.quantity :=
          qtyOfList_eq_of_find _ _ _ _ hu hfind
        have hto₀ : st.qtyOf req.product_id req.to_location_id = dest.quantity :=
          qtyOfList_eq_of_find _ _ _ _ hu hdest₀
        refine ⟨?_, ?_, ?_, ?_⟩
        · show qtyOfList _ _ _ = _
          rw [qtyOfList_update_other _ _ _ _ _ _ htone,
            qtyOfList_update_self _ _ _ _ _ hu hfind, hq1]
        · show qtyOfList _ _ _ = _
          rw [qtyOfList_update_self _ _ _ _ _ hu₁ hdest, hto₀]
        · show totalQtyList _ _ = totalQtyList st.inventory req.product_id
          rw [totalQtyList_update _ _ _ _ _ hu₁ hdest,
            totalQtyList_update _ _ _ _ _ hu hfind]
          ring
        · intro hcontra
          rw [hdest₀] at hcontra
          cases hcontra

/-- Witness for `stock_transfer_conserves_total_quantity`: transferring 4
units of product 1 from location 1 (holding 10) to the absent location 2. -/
theorem stock_transfer_conserves_total_quantity_witness :
    (TransferState.mk [⟨1, 1, 6⟩, ⟨1, 2, 4⟩]
        [⟨1, 1, "transfer_out", -4, none, "Transfer to location 2"⟩,
         ⟨1, 2, "transfer_in", 4, none, "Transfer from location 1"⟩]).qtyOf 1 1
      = (TransferState.mk [⟨1, 1, 10⟩] []).qtyOf 1 1 - 4 ∧
    (TransferState.mk [⟨1, 1, 6⟩, ⟨1, 2, 4⟩]
        [⟨1, 1, "transfer_out", -4, none, "Transfer to location 2"⟩,
         ⟨1, 2, "transfer_in", 4, none, "Transfer from location 1"⟩]).qtyOf 1 2
      = (TransferState.mk [⟨1, 1, 10⟩] []).qtyOf 1 2 + 4 ∧
    (TransferState.mk [⟨1, 1, 6⟩, ⟨1, 2, 4⟩]
        [⟨1, 1, "transfer_out", -4, none, "Transfer to location 2"⟩,
         ⟨1, 2, "transfer_in", 4, none, "Transfer from location 1"⟩]).totalQty 1
      = (TransferState.mk [⟨1, 1, 10⟩] []).totalQty 1 ∧
    (findInventory [InventoryRow.mk 1 1 10] 1 2 = none →
      ∃ r ∈ [InventoryRow.mk 1 1 6, InventoryRow.mk 1 2 4],
        r.product_id = 1 ∧ r.location_id = 2 ∧ r.quantity = 4) :=
  stock_transfer_conserves_total_quantity
    ⟨[⟨1, 1, 10⟩], []⟩ ⟨1, 2, 1, 4, none⟩
    ⟨[⟨1, 1, 6⟩, ⟨1, 2, 4⟩],
      [⟨1, 1, "transfer_out", -4, none, "Transfer to location 2"⟩,
       ⟨1, 2, "transfer_in", 4, none, "Transfer from location 1"⟩]⟩
    (by decide) (by decide) (by decide)

/-- C8: `validate_startup_environment` returns `True` exactly when both
`SECRET_KEY` and `POSTGRES_PASSWORD` are set and non-empty, `SECRET_KEY` is
at least 32 characters long and `POSTGRES_PASSWORD` at least 8; in every
other case it returns `False`. -/
theorem validate_startup_environment_iff (env : Env) :
    validate_startup_environment env = true ↔
      ((∃ s, env "SECRET_KEY" = some s ∧ s ≠ "" ∧ 32 ≤ s.length) ∧
       (∃ p, env "POSTGRES_PASSWORD" = some p ∧ p ≠ "" ∧ 8 ≤ p.length)) := by
  rcases hs : env "SECRET_KEY" with _ | s <;>
    rcases hp : env "POSTGRES_PASSWORD" with _ | p <;>
      simp only [validate_startup_environment, required_vars, List.foldl,
        validateVarStep, hs, hp] <;>
    simp <;> split_ifs <;> simp_all [String.isEmpty_iff]

/-- Run of `waitLoop` in which every attempt raises a database error and the
final attempt number `mr` closes the list: the loop returns `False` and the
sleeps performed are exactly the backoff delays of the earlier attempts. -/
lemma waitLoop_all_dbError (mr : Nat) (rd : ℚ) (ar : Nat → AttemptResult) (jf : Nat → ℚ)
    (l : List Nat) (sleeps : List ℚ)
    (hfail : ∀ n, ar n = .dbError) (hlt : ∀ n ∈ l, n ≠ mr) :
    waitLoop mr rd ar jf (l ++ [mr]) sleeps
      = (false, sleeps ++ l.map (fun n => backoffDelay rd n (jf n))) := by
  induction l generalizing sleeps with
  | nil =>
    simp [waitLoop, hfail mr]
  | cons a rest ih =>
    rw [List.cons_append]
    simp only [waitLoop, hfail a]
    rw [if_neg (hlt a (List.mem_cons_self _ _))]
    rw [ih _ (fun n hn => hlt n (List.mem_cons_of_mem _ hn))]
    simp

/-- C6: when every connection attempt fails with a database error,
`wait_for_database` sleeps before each of the attempts `2, ..., max_retries`
for the exponential backoff delay of the preceding attempt — for attempt `n`
with `1 ≤ n < max_retries` the delay is `retry_delay * 2 ^ (n - 1)` plus up
to 10 percent jitter, capped at 60 seconds — and after `max_retries`
consecutive failures it stops retrying and returns `False`.  The constructor
default for `max_retries` is 10. -/
theorem wait_for_database_exponential_backoff
    (mr : Nat) (rd : ℚ) (ar : Nat → AttemptResult) (jf : Nat → ℚ)
    (hfail : ∀ n, ar n = .dbError)
    (hjf : ∀ n, 0 ≤ jf n ∧ jf n < 1) (hrd : 0 ≤ rd) :
    (wait_for_database mr rd ar jf).1 = false ∧
    (wait_for_database mr rd ar jf).2
      = (List.range (mr - 1)).map (fun i => backoffDelay rd (i + 1) (jf (i + 1))) ∧
    (∀ n, backoffDelay rd n (jf n)
        = min (rd * 2 ^ (n - 1) + rd * 2 ^ (n - 1) * (1 / 10) * jf n) 60) ∧
    (∀ n, min (rd * 2 ^ (n - 1)) 60 ≤ backoffDelay rd n (jf n)) ∧
    (∀ n, backoffDelay rd n (jf n) ≤ min (rd * 2 ^ (n - 1) * (11 / 10)) 60) ∧
    defaultMaxRetries = 10 := by
  have hbase : ∀ n : Nat, (0 : ℚ) ≤ rd * 2 ^ (n - 1) := by
    intro n
    positivity
  refine ⟨?_, ?_, ?_, ?_, ?_, rfl⟩
  · cases mr with
    | zero => simp [wait_for_database, waitLoop]
    | succ m =>
      rw [wait_for_database, List.range_succ, List.map_append]
      simp only [List.map_cons, List.map_nil]
      rw [waitLoop_all_dbError _ _ _ _ _ _ hfail]
      · intro n hn
        simp only [List.mem_map, List.mem_range] at hn
        obtain ⟨i, hi, rfl⟩ := hn
        omega
  · cases mr with
    | zero => simp [wait_for_database, waitLoop]
    | succ m =>
      rw [wait_for_database, List.range_succ, List.map_append]
      simp only [List.map_cons, List.map_nil]
      rw [waitLoop_all_dbError _ _ _ _ _ _ hfail]
      · simp [List.map_map, Function.comp]
      · intro n hn
        simp only [List.mem_map, List.mem_range] at hn
        obtain ⟨i, hi, rfl⟩ := hn
        omega
  · intro n
    simp [backoffDelay]
  · intro n
    apply min_le_min _ le_rfl
    have := (hjf n).1
    nlinarith [hbase n]
  · intro n
    apply min_le_min _ le_rfl
    have h1 := (hjf n).1
    have h2 := (hjf n).2
    nlinarith [hbase n]

/-- Witness for `wait_for_database_exponential_backoff`: three attempts, all
failing with a database error, retry delay 1 and zero jitter. -/
theorem wait_for_database_exponential_backoff_witness :
    (wait_for_database 3 1 (fun _ => AttemptResult.dbError) (fun _ => 0)).1 = false ∧
    (wait_for_database 3 1 (fun _ => AttemptResult.dbError) (fun _ => 0)).2
      = (List.range 2).map (fun i => backoffDelay 1 (i + 1) 0) ∧
    (∀ n, backoffDelay 1 n 0
        = min ((1 : ℚ) * 2 ^ (n - 1) + 1 * 2 ^ (n - 1) * (1 / 10) * 0) 60) ∧
    (∀ n, min ((1 : ℚ) * 2 ^ (n - 1)) 60 ≤ backoffDelay 1 n 0) ∧
    (∀ n, backoffDelay 1 n 0 ≤ min ((1 : ℚ) * 2 ^ (n - 1) * (11 / 10)) 60) ∧
    defaultMaxRetries = 10 :=
  wait_for_database_exponential_backoff 3 1 (fun _ => AttemptResult.dbError)
    (fun _ => 0) (fun _ => rfl) (fun _ => ⟨le_refl 0, by norm_num⟩) (by norm_num)

/-! ### Dates, datetimes as rendered by Python `isoformat`, and JSON values -/

/-- A calendar date (`datetime.date`). -/
structure Date where
  year : Nat
  month : Nat
  day : Nat
deriving DecidableEq

/-- Zero-padding of a number to a given width, as in Python date formatting. -/
def padTo (width n : Nat) : String :=
  let s := toString n
  String.mk (List.replicate (width - s.length) '0') ++ s

/-- Python `date.isoformat()`: `YYYY-MM-DD`. -/
def Date.isoformat (d : Date) : String :=
  padTo 4 d.year ++ "-" ++ padTo 2 d.month ++ "-" ++ padTo 2 d.day

/-- A timestamp (`datetime.datetime`), to second precision. -/
structure DateTime where
  date : Date
  hour : Nat
  minute : Nat
  second : Nat
deriving DecidableEq

/-- Python `datetime.isoformat()` for a whole-second timestamp. -/
def DateTime.isoformat (t : DateTime) : String :=
  t.date.isoformat ++ "T" ++ padTo 2 t.hour ++ ":" ++ padTo 2 t.minute ++ ":" ++ padTo 2 t.second

/-- A JSON value, as produced by the `to_dict` serializers and `jsonify`. -/
inductive Value where
  | null
  | int (i : Int)
  | str (s : String)
  | bool (b : Bool)
  | obj (fields : List (String × Value))

/-- Serialization of a nullable text column: `None` is kept as `None`. -/
def optStr : Option String → Value
  | some s => .str s
  | none => .null

/-- Serialization of a nullable integer column: `None` is kept as `None`. -/
def optInt : Option Int → Value
  | some i => .int i
  | none => .null

/-- Serialization of a nullable foreign-key column. -/
def optNat : Option Nat → Value
  | some n => .int n
  | none => .null

/-- Serialization of a nullable datetime column, as the
`self.x.isoformat() if self.x else None` pattern of the `to_dict` methods. -/
def isoOpt : Option DateTime → Value
  | some t => .str t.isoformat
  | none => .null

/-! ### Data-model entities and their `to_dict` serializers -/

/-- Modelled from the spec: the `Brand` model file is not under `src/` (it is
only imported by `main.py` and referenced by `Product.brand`).  The spec says
the data model is standard relational entities (Product, Brand, Supplier,
Location, Inventory, StockTransaction, DailyCount, User) with simple foreign
keys and to-dict serializers, so `Brand` is modelled as a minimal standard
entity whose `to_dict` returns every column. -/
structure Brand where
  id : Nat
  name : String
  created_at : Option DateTime
deriving DecidableEq

/-- Columns of the modelled `brands` table. -/
def Brand.columns : List String := ["id", "name", "created_at"]

/-- Modelled from the spec: serializer of the modelled `Brand` entity. -/
def Brand.to_dict (b : Brand) : List (String × Value) :=
  [("id", .int b.id), ("name", .str b.name), ("created_at", isoOpt b.created_at)]

/-- Modelled from the spec: the `Supplier` model file is not under `src/`;
like `Brand` it is modelled as a minimal standard entity. -/
structure Supplier where
  id : Nat
  name : String
  created_at : Option DateTime
deriving DecidableEq

/-- Columns of the modelled `suppliers` table. -/
def Supplier.columns : List String := ["id", "name", "created_at"]

/-- Modelled from the spec: serializer of the modelled `Supplier` entity. -/
def Supplier.to_dict (s : Supplier) : List (String × Value) :=
  [("id", .int s.id), ("name", .str s.name), ("created_at", isoOpt s.created_at)]

/-- Modelled from the spec: the `User` model file is not under `src/` (its
callers construct users with `username`, `email`, `full_name`, `role` and
`is_active`); it is modelled as a standard entity over those fields. -/
structure User where
  id : Nat
  username : String
  email : String
  full_name : String
  role : String
  is_active : Bool
  created_at : Option DateTime
deriving DecidableEq

/-- Columns of the modelled `users` table. -/
def User.columns : List String :=
  ["id", "username", "email", "full_name", "role", "is_active", "created_at"]

/-- Modelled from the spec: serializer of the modelled `User` entity. -/
def User.to_dict (u : User) : List (String × Value) :=
  [("id", .int u.id), ("username", .str u.username), ("email", .str u.email),
   ("full_name", .str u.full_name), ("role", .str u.role),
   ("is_active", .bool u.is_active), ("created_at", isoOpt u.created_at)]

/-- The `Location` entity from `src/models/location.py`. -/
structure Location where
  id : Nat
  name : String
  location_type : String
  address : Option String
  is_active : Bool
  created_at : Option DateTime
  updated_at : Option DateTime
deriving DecidableEq

/-- Columns of the `locations` table, in declaration order. -/
def Location.columns : List String :=
  ["id", "name", "location_type", "address", "is_active", "created_at", "updated_at"]

/-- `Location.to_dict` from `src/models/location.py`. -/
def Location.to_dict (l : Location) : List (String × Value) :=
  [("id", .int l.id), ("name", .str l.name), ("location_type", .str l.location_type),
   ("address", optStr l.address), ("is_active", .bool l.is_active),
   ("created_at", isoOpt l.created_at), ("updated_at", isoOpt l.updated_at)]

/-- The `Product` entity from
`Documents/stock-management-system/stock-management-backend/src/models/product.py`. -/
structure Product where
  id : Nat
  sku : String
  name : String
  description : Option String
  category : Option String
  unit : String
  reorder_point : Int
  image_url : Option String
  is_active : Bool
  brand_id : Nat
  supplier_id : Nat
  brand : Option Brand
  supplier : Option Supplier
  created_at : Option DateTime
  updated_at : Option DateTime
deriving DecidableEq

/-- Columns of the `products` table, in declaration order. -/
def Product.columns : List String :=
  ["id", "sku", "name", "description", "category", "unit", "reorder_point",
   "image_url", "is_active", "brand_id", "supplier_id", "created_at", "updated_at"]

/-- `Product.to_dict` from `src/models/product.py`: every column, plus the
`brand` and `supplier` relationship objects. -/
def Product.to_dict (p : Product) : List (String × Value) :=
  [("id", .int p.id), ("sku", .str p.sku), ("name", .str p.name),
   ("description", optStr p.description), ("category", optStr p.category),
   ("unit", .str p.unit), ("reorder_point", .int p.reorder_point),
   ("image_url", optStr p.image_url), ("is_active", .bool p.is_active),
   ("brand_id", .int p.brand_id), ("supplier_id", .int p.supplier_id),
   ("brand", match p.brand with | some b => .obj b.to_dict | none => .null),
   ("supplier", match p.supplier with | some s => .obj s.to_dict | none => .null),
   ("created_at", isoOpt p.created_at), ("updated_at", isoOpt p.updated_at)]

/-- The full `Inventory` entity from `src/models/inventory.py` as serialized
by its `to_dict` (the route handlers only touch the `InventoryRow` part of
it: the quantity and the two foreign keys). -/
structure Inventory where
  id : Nat
  quantity : Int
  product_id : Nat
  location_id : Nat
  product : Option Product
  location : Option Location
  created_at : Option DateTime
  updated_at : Option DateTime
deriving DecidableEq

/-- Columns of the `inventory` table, in declaration order. -/
def Inventory.columns : List String :=
  ["id", "quantity", "product_id", "location_id", "created_at", "updated_at"]

/-- `Inventory.to_dict` from `src/models/inventory.py`. -/
def Inventory.to_dict (i : Inventory) : List (String × Value) :=
  [("id", .int i.id), ("quantity", .int i.quantity),
   ("product_id", .int i.product_id), ("location_id", .int i.location_id),
   ("product", match i.product with | some p => .obj p.to_dict | none => .null),
   ("location", match i.location with | some l => .obj l.to_dict | none => .null),
   ("created_at", isoOpt i.created_at), ("updated_at", isoOpt i.updated_at)]

/-- The `StockTransaction` entity from `src/models/stock_transaction.py`:
its transaction rows carry `from_location_id` and `to_location_id` (both
nullable) and a non-nullable `user_id`; there is no `location_id` and no
`reference_id` column. -/
structure StockTransaction where
  id : Nat
  transaction_type : String
  quantity : Int
  notes : Option String
  product_id : Nat
  from_location_id : Option Nat
  to_location_id : Option Nat
  user_id : Nat
  product : Option Product
  from_location : Option Location
  to_location : Option Location
  user : Option User
  created_at : Option DateTime
deriving DecidableEq

/-- Columns of the `stock_transactions` table, in declaration order. -/
def StockTransaction.columns : List String :=
  ["id", "transaction_type", "quantity", "notes", "product_id",
   "from_location_id", "to_location_id", "user_id", "created_at"]

/-- `StockTransaction.to_dict` from `src/models/stock_transaction.py`. -/
def StockTransaction.to_dict (t : StockTransaction) : List (String × Value) :=
  [("id", .int t.id), ("transaction_type", .str t.transaction_type),
   ("quantity", .int t.quantity), ("notes", optStr t.notes),
   ("product_id", .int t.product_id),
   ("from_location_id", optNat t.from_location_id),
   ("to_location_id", optNat t.to_location_id),
   ("user_id", .int t.user_id),
   ("product", match t.product with | some p => .obj p.to_dict | none => .null),
   ("from_location", match t.from_location with | some l => .obj l.to_dict | none => .null),
   ("to_location", match t.to_location with | some l => .obj l.to_dict | none => .null),
   ("user", match t.user with | some u => .obj u.to_dict | none => .null),
   ("created_at", isoOpt t.created_at)]

/-- The `DailyCount` entity from `src/models/daily_count.py`: one physical
count per product, location and date, with the non-nullable foreign key
`user_id`, the nullable `calculated_usage`, and a `UniqueConstraint` on
`(product_id, location_id, count_date)` named `unique_daily_count`.  Note
the model has no `starting_quantity` column. -/
structure DailyCount where
  id : Nat
  count_date : Date
  counted_quantity : Int
  calculated_usage : Option Int
  product_id : Nat
  location_id : Nat
  user_id : Nat
  product : Option Product
  location : Option Location
  user : Option User
  created_at : Option DateTime
deriving DecidableEq

/-- Columns of the `daily_counts` table, in declaration order. -/
def DailyCount.columns : List String :=
  ["id", "count_date", "counted_quantity", "calculated_usage",
   "product_id", "location_id", "user_id", "created_at"]

/-- The columns of the `unique_daily_count` uniqueness constraint declared in
`DailyCount.__table_args__`. -/
def DailyCount.uniqueConstraintColumns : List String :=
  ["product_id", "location_id", "count_date"]

/-- `DailyCount.to_dict` from `src/models/daily_count.py`.  `count_date` is a
non-nullable date column, and a Python `date` object is always truthy, so the
`if self.count_date else None` guard always takes the isoformat branch. -/
def DailyCount.to_dict (d : DailyCount) : List (String × Value) :=
  [("id", .int d.id), ("count_date", .str d.count_date.isoformat),
   ("counted_quantity", .int d.counted_quantity),
   ("calculated_usage", optInt d.calculated_usage),
   ("product_id", .int d.product_id), ("location_id", .int d.location_id),
   ("user_id", .int d.user_id),
   ("product", match d.product with | some p => .obj p.to_dict | none => .null),
   ("location", match d.location with | some l => .obj l.to_dict | none => .null),
   ("user", match d.user with | some u => .obj u.to_dict | none => .null),
   ("created_at", isoOpt d.created_at)]

/-- C9: every data-model entity (Product, Brand, Supplier, Location,
Inventory, StockTransaction, DailyCount, User) has a `to_dict` serializer
that returns every column of the entity: each column name appears among the
keys of the returned dictionary; date/datetime columns are rendered as
ISO-format strings when set, and a `None` value (a nullable date, integer or
text column that is unset) is kept as `None`/null. -/
theorem entity_to_dict_serializes_every_column :
    (∀ p : Product, Product.columns ⊆ (Product.to_dict p).map Prod.fst) ∧
    (∀ b : Brand, Brand.columns ⊆ (Brand.to_dict b).map Prod.fst) ∧
    (∀ s : Supplier, Supplier.columns ⊆ (Supplier.to_dict s).map Prod.fst) ∧
    (∀ l : Location, Location.columns ⊆ (Location.to_dict l).map Prod.fst) ∧
    (∀ i : Inventory, Inventory.columns ⊆ (Inventory.to_dict i).map Prod.fst) ∧
    (∀ t : StockTransaction,
      StockTransaction.columns ⊆ (StockTransaction.to_dict t).map Prod.fst) ∧
    (∀ d : DailyCount, DailyCount.columns ⊆ (DailyCount.to_dict d).map Prod.fst) ∧
    (∀ u : User, User.columns ⊆ (User.to_dict u).map Prod.fst) ∧
    (∀ d : DailyCount,
      (DailyCount.to_dict d).lookup "count_date" = some (.str d.count_date.isoformat)) ∧
    (∀ d : DailyCount,
      (DailyCount.to_dict d).lookup "calculated_usage" = some (optInt d.calculated_usage)) ∧
    (∀ p : Product, (Product.to_dict p).lookup "created_at" = some (isoOpt p.created_at)) ∧
    optInt none = Value.null ∧ (∀ i, optInt (some i) = Value.int i) ∧
    isoOpt none = Value.null ∧ (∀ t, isoOpt (some t) = Value.str t.isoformat) := by
  refine ⟨?_, ?_, ?_, ?_, ?_, ?_, ?_, ?_, ?_, ?_, ?_, rfl, fun i => rfl, rfl, fun t => rfl⟩
  · intro p c hc
    fin_cases hc <;> simp [Product.to_dict]
  · intro b c hc
    fin_cases hc <;> simp [Brand.to_dict]
  · intro s c hc
    fin_cases hc <;> simp [Supplier.to_dict]
  · intro l c hc
    fin_cases hc <;> simp [Location.to_dict]
  · intro i c hc
    fin_cases hc <;> simp [Inventory.to_dict]
  · intro t c hc
    fin_cases hc <;> simp [StockTransaction.to_dict]
  · intro d c hc
    fin_cases hc <;> simp [DailyCount.to_dict]
  · intro u c hc
    fin_cases hc <;> simp [User.to_dict]
  · intro d
    simp [DailyCount.to_dict, List.lookup]
  · intro d
    simp [DailyCount.to_dict, List.lookup]
  · intro p
    simp [Product.to_dict, List.lookup]

/-! ### The daily count route (`record_daily_count`)

From `stock-management-backend/src/routes/daily_count.py`, paired with the
models of the same tree (`src/models/daily_count.py`,
`src/models/stock_transaction.py`).  The route constructs
`DailyCount(..., starting_quantity=..., ...)` and
`StockTransaction(..., location_id=..., reference_id=..., ...)`; SQLAlchemy's
default declarative constructor accepts only mapped class attributes as
keyword arguments and raises `TypeError` on any other name, and those names
are not attributes of the models in this tree. -/

/-- The mapped attributes (columns and relationships) of the `DailyCount`
model class in `src/models/daily_count.py`, available as constructor keyword
arguments. -/
def dailyCountModelAttrs : List String :=
  ["id", "count_date", "counted_quantity", "calculated_usage",
   "product_id", "location_id", "user_id", "product", "location", "user", "created_at"]

/-- The mapped attributes of the `StockTransaction` model class in
`src/models/stock_transaction.py`. -/
def stockTransactionModelAttrs : List String :=
  ["id", "transaction_type", "quantity", "notes", "product_id",
   "from_location_id", "to_location_id", "user_id",
   "product", "from_location", "to_location", "user", "created_at"]

/-- SQLAlchemy's default declarative constructor walks the keyword arguments
and raises `TypeError (name + " is an invalid keyword argument for " + class)`
at the first keyword that is not an attribute of the mapped class. -/
def declarativeInitCheck (className : String) (attrs kwargs : List String) :
    Except PyError Unit :=
  match kwargs.find? (fun k => !attrs.contains k) with
  | some k => .error (.typeError (k ++ " is an invalid keyword argument for " ++ className))
  | none => .ok ()

/-- Constructing `DailyCount(product_id=..., location_id=..., count_date=...,
starting_quantity=..., counted_quantity=..., calculated_usage=...)` raises
`TypeError`: the model has no `starting_quantity` attribute. -/
lemma dailyCountInitCheck_fails :
    declarativeInitCheck "DailyCount" dailyCountModelAttrs
      ["product_id", "location_id", "count_date", "starting_quantity",
       "counted_quantity", "calculated_usage"]
      = .error (.typeError "starting_quantity is an invalid keyword argument for DailyCount") :=
  rfl

/-- Constructing `StockTransaction(product_id=..., location_id=...,
transaction_type=..., quantity=..., reference_id=..., notes=...)` raises
`TypeError`: the model has `from_location_id`/`to_location_id` but no
`location_id` (nor `reference_id`) attribute. -/
lemma stockTransactionInitCheck_fails :
    declarativeInitCheck "StockTransaction" stockTransactionModelAttrs
      ["product_id", "location_id", "transaction_type", "quantity",
       "reference_id", "notes"]
      = .error (.typeError "location_id is an invalid keyword argument for StockTransaction") :=
  rfl

/-- The database state the daily count route touches: the inventory rows,
the `daily_counts` table and the `stock_transactions` table. -/
structure CountState where
  inventory : List InventoryRow
  daily_counts : List DailyCount
  stock_transactions : List StockTransaction
deriving DecidableEq

/-- JSON body of `POST /daily-count`: `product_id`, `location_id` and
`counted_quantity` are read with `data[...]` (required); `count_date` with
`data.get(...)`, defaulting to today's date. -/
structure DailyCountRequest where
  product_id : Option Nat
  location_id : Option Nat
  counted_quantity : Option Int
  count_date : Option Date
deriving DecidableEq

/-- Response of the daily count route: a serialized `DailyCount` record with
an HTTP status, or a JSON error object with its status. -/
inductive CountResponse where
  | record (status : Nat) (count : DailyCount)
  | jsonError (status : Nat) (error : String)
deriving DecidableEq

/-- The `record_daily_count` handler from `src/routes/daily_count.py`.  An
uncaught Python exception is an `Except.error`; in that case the session is
never committed, so the persisted state is unchanged (handled by the caller).

Source order in the update branch: `old_usage = existing_count.calculated_usage`;
`existing_count.counted_quantity = counted_quantity`;
`existing_count.calculated_usage = inventory.quantity - counted_quantity`
(the inventory quantity before the call); `inventory.quantity =
counted_quantity`; `usage_diff = existing_count.calculated_usage - old_usage`
(a `TypeError` when the stored `calculated_usage` is NULL); when
`usage_diff != 0` the adjustment `StockTransaction(..., location_id=...,
reference_id=..., ...)` raises `TypeError` (see
`stockTransactionInitCheck_fails`), so only the `usage_diff == 0` path
reaches `db.session.commit()` and returns the updated record (status 200).

In the new-count branch `DailyCount(..., starting_quantity=..., ...)` raises
`TypeError` (see `dailyCountInitCheck_fails`) before anything is added to
the session, so that branch never commits; the continuation after a
successful constructor check is unreachable and marked as such. -/
def record_daily_count (st : CountState) (today : Date) (data : DailyCountRequest) :
    Except PyError (CountState × CountResponse) := do
  let product_id ← requireField "product_id" data.product_id
  let location_id ← requireField "location_id" data.location_id
  let counted_quantity ← requireField "counted_quantity" data.counted_quantity
  let count_date := data.count_date.getD today
  match findInventory st.inventory product_id location_id with
  | none => .ok (st, .jsonError 404 "Product not found in this location")
  | some inventory =>
    match st.daily_counts.find? (fun c => decide (c.product_id = product_id ∧
        c.location_id = location_id ∧ c.count_date = count_date)) with
    | some existing_count =>
      let old_usage := existing_count.calculated_usage
      let updated := { existing_count with
        counted_quantity := counted_quantity
        calculated_usage := some (inventory.quantity - counted_quantity) }
      let inv1 := updateInventory st.inventory product_id location_id counted_quantity
      match old_usage with
      | none => .error (.typeError "unsupported operand type for int and NoneType")
      | some old =>
        let usage_diff := (inventory.quantity - counted_quantity) - old
        if usage_diff ≠ 0 then
          match declarativeInitCheck "StockTransaction" stockTransactionModelAttrs
              ["product_id", "location_id", "transaction_type", "quantity",
               "reference_id", "notes"] with
          | .error e => .error e
          | .ok _ =>
            -- unreachable: the keyword check above always raises, see
            -- stockTransactionInitCheck_fails
            .error (.typeError "unreachable")
        else
          .ok ({ st with
              inventory := inv1
              daily_counts := st.daily_counts.map (fun c =>
                if decide (c.product_id = product_id ∧ c.location_id = location_id ∧
                    c.count_date = count_date) then updated else c) },
            .record 200 updated)
    | none =>
      let _calculated_usage := inventory.quantity - counted_quantity
      match declarativeInitCheck "DailyCount" dailyCountModelAttrs
          ["product_id", "location_id", "count_date", "starting_quantity",
           "counted_quantity", "calculated_usage"] with
      | .error e => .error e
      | .ok _ =>
        -- unreachable: the keyword check above always raises, see
        -- dailyCountInitCheck_fails
        .error (.typeError "unreachable")

/-! ### The product creation route (`create_product`)

From `stock-management-backend/src/routes/product.py`, paired with the
`Product` model of the Documents tree. -/

/-- JSON body of `POST /products`: `sku`, `name`, `brand_id`, `supplier_id`
and `unit` are read with `data[...]` (required); `category`, `reorder_point`
(default 0) and `image_url` with `data.get(...)`. -/
structure ProductRequest where
  sku : Option String
  name : Option String
  brand_id : Option Nat
  supplier_id : Option Nat
  category : Option String
  unit : Option String
  reorder_point : Option Int
  image_url : Option String
deriving DecidableEq

/-- The `products` table together with the id the next flush will assign. -/
structure ProductState where
  products : List Product
  next_product_id : Nat
deriving DecidableEq

/-- Response of the product creation route. -/
inductive ProductResponse where
  | record (status : Nat) (product : Product)
  | jsonError (status : Nat) (error : String)
deriving DecidableEq

/-- The `create_product` handler from `src/routes/product.py`: reads the
fields in source order (a missing required field raises `KeyError`), builds
the product — `description` is never passed, so it stays NULL; `is_active`
and the timestamps take their column defaults at commit — and answers 201
with the new record. -/
def create_product (st : ProductState) (now : DateTime) (data : ProductRequest) :
    Except PyError (ProductState × ProductResponse) := do
  let sku ← requireField "sku" data.sku
  let name ← requireField "name" data.name
  let brand_id ← requireField "brand_id" data.brand_id
  let supplier_id ← requireField "supplier_id" data.supplier_id
  let category := data.category
  let unit ← requireField "unit" data.unit
  let reorder_point := data.reorder_point.getD 0
  let image_url := data.image_url
  let product : Product :=
    { id := st.next_product_id
      sku := sku
      name := name
      description := none
      category := category
      unit := unit
      reorder_point := reorder_point
      image_url := image_url
      is_active := true
      brand_id := brand_id
      supplier_id := supplier_id
      brand := none
      supplier := none
      created_at := some now
      updated_at := some now }
  .ok ({ products := st.products ++ [product], next_product_id := st.next_product_id + 1 },
    .record 201 product)

/-! ### Application-level exception handling

`setup_error_handlers` in `src/config/logging.py` registers
`@app.errorhandler(Exception)`, which converts any exception that escapes a
route handler into the JSON body `error: An unexpected error occurred` with
status 500; the session is not committed, so the state is unchanged. -/

/-- Flask dispatch of `POST /daily-count` with the application-level
`errorhandler(Exception)` installed. -/
def appDispatchDailyCount (st : CountState) (today : Date) (data : DailyCountRequest) :
    CountState × CountResponse :=
  match record_daily_count st today data with
  | .ok r => r
  | .error _ => (st, .jsonError 500 "An unexpected error occurred")

/-- Flask dispatch of `POST /products` with the application-level
`errorhandler(Exception)` installed. -/
def appDispatchCreateProduct (st : ProductState) (now : DateTime) (data : ProductRequest) :
    ProductState × ProductResponse :=
  match create_product st now data with
  | .ok r => r
  | .error _ => (st, .jsonError 500 "An unexpected error occurred")

/-- C1: evaluation of `record_daily_count` at a state with an inventory row
(product 1, location 1, quantity 10), no existing daily count, and a request
counting 4.  The claim says a new `DailyCount` with `calculated_usage = 6` is
recorded, the inventory set to 4, and the record returned with status 201;
the code instead raises `TypeError` because `starting_quantity` is not a
mapped attribute of the `DailyCount` model in this tree (and the model's
non-nullable `user_id` is never supplied), so no record is created. -/
theorem record_daily_count_new_count_raises_type_error :
    record_daily_count ⟨[⟨1, 1, 10⟩], [], []⟩ ⟨2024, 1, 15⟩
        ⟨some 1, some 1, some 4, some ⟨2024, 1, 15⟩⟩
      = .error (.typeError "starting_quantity is an invalid keyword argument for DailyCount") :=
  rfl

/-- C3: evaluation of `record_daily_count` at a state with an inventory row
of quantity 12 and an existing daily count (counted 5, calculated usage 3)
for the same product, location and date, and a request counting 7.  The
recomputed usage is 12 - 7 = 5, so `usage_diff = 2 != 0` and the handler
tries to create the adjustment `StockTransaction(..., location_id=...,
reference_id=..., ...)`; the claim says the existing record is updated in
place and returned with status 200, but the code raises `TypeError` because
`location_id` is not a mapped attribute of the `StockTransaction` model in
this tree, and nothing is committed. -/
theorem record_daily_count_update_branch_raises_type_error :
    record_daily_count
        ⟨[⟨1, 1, 12⟩],
         [⟨1, ⟨2024, 1, 15⟩, 5, some 3, 1, 1, 1, none, none, none, none⟩], []⟩
        ⟨2024, 1, 15⟩ ⟨some 1, some 1, some 7, some ⟨2024, 1, 15⟩⟩
      = .error (.typeError "location_id is an invalid keyword argument for StockTransaction") :=
  rfl

/-- C10: evaluation of `record_daily_count` at a state with an inventory row
of quantity 3, no existing daily count, and a request counting 5 (more than
the inventory).  The claim says a `DailyCount` storing the negative
`calculated_usage = -2` is created and no usage transaction; the code raises
`TypeError` constructing `DailyCount(..., starting_quantity=..., ...)`
before any record is stored, so no record stores a negative usage either. -/
theorem record_daily_count_overcount_raises_type_error :
    record_daily_count ⟨[⟨1, 1, 3⟩], [], []⟩ ⟨2024, 1, 15⟩
        ⟨some 1, some 1, some 5, some ⟨2024, 1, 15⟩⟩
      = .error (.typeError "starting_quantity is an invalid keyword argument for DailyCount") :=
  rfl

/-- C5 (counterexample): one committed `POST /daily-count` request modifies
rows of two tables, not one.  Updating an existing count from 5 to 7 with
inventory 10 and stored usage 3 (so the recomputed usage 10 - 7 = 3 equals
the stored one and the request commits, returning 200) changes both the
`daily_counts` row and the `inventory` row. -/
theorem record_daily_count_modifies_two_tables :
    record_daily_count
        ⟨[⟨1, 1, 10⟩],
         [⟨1, ⟨2024, 1, 15⟩, 5, some 3, 1, 1, 1, none, none, none, none⟩], []⟩
        ⟨2024, 1, 15⟩ ⟨some 1, some 1, some 7, some ⟨2024, 1, 15⟩⟩
      = .ok (⟨[⟨1, 1, 7⟩],
           [⟨1, ⟨2024, 1, 15⟩, 7, some 3, 1, 1, 1, none, none, none, none⟩], []⟩,
         .record 200 ⟨1, ⟨2024, 1, 15⟩, 7, some 3, 1, 1, 1, none, none, none, none⟩) ∧
    ([⟨1, 1, 7⟩] : List InventoryRow) ≠ [⟨1, 1, 10⟩] ∧
    ([⟨1, ⟨2024, 1, 15⟩, 7, some 3, 1, 1, 1, none, none, none, none⟩] : List DailyCount)
      ≠ [⟨1, ⟨2024, 1, 15⟩, 5, some 3, 1, 1, 1, none, none, none, none⟩] :=
  ⟨rfl, by decide, by decide⟩

/-- Bind of a raised exception short-circuits. -/
lemma exceptErrorBind {ε α β : Type} (e : ε) (f : α → Except ε β) :
    (Except.error e >>= f) = Except.error e := rfl

/-- Bind of a successful computation applies the continuation. -/
lemma exceptOkBind {ε α β : Type} (a : α) (f : α → Except ε β) :
    (Except.ok a >>= f : Except ε β) = f a := rfl

/-- C5 (amended): each write of the stock-transfer and daily-count routines
is a single-table row operation, but a single request can touch more than
one table: a committed `POST /daily-count` writes only the `daily_counts`
and `inventory` tables (it never commits a `stock_transactions` row), and a
successful `POST /stock-transfer` writes the `inventory` table and inserts
exactly two rows into `stock_transactions`. -/
theorem daily_count_and_transfer_table_writes :
    (∀ (st : CountState) (today : Date) (data : DailyCountRequest)
        (st' : CountState) (resp : CountResponse),
      record_daily_count st today data = .ok (st', resp) →
      st'.stock_transactions = st.stock_transactions) ∧
    (∀ (st : TransferState) (req : TransferRequest) (st' : TransferState) (s : Nat),
      stock_transfer st req = .ok st' s →
      st'.transactions.length = st.transactions.length + 2) := by
  constructor
  · intro st today data st' resp hok
    rcases hpid : data.product_id with _ | pid
    · simp [record_daily_count, hpid, requireField, exceptErrorBind] at hok
    rcases hlid : data.location_id with _ | lid
    · simp [record_daily_count, hpid, hlid, requireField, exceptErrorBind, exceptOkBind] at hok
    rcases hcq : data.counted_quantity with _ | cq
    · simp [record_daily_count, hpid, hlid, hcq, requireField,
        exceptErrorBind, exceptOkBind] at hok
    simp only [record_daily_count, hpid, hlid, hcq, requireField,
      exceptErrorBind, exceptOkBind] at hok
    rcases hfind : findInventory st.inventory pid lid with _ | inventory
    · rw [hfind] at hok
      simp only at hok
      injection hok with h1
      injection h1 with h1a _
      rw [← h1a]
    · rw [hfind] at hok
      simp only at hok
      rcases hex : st.daily_counts.find? (fun c => decide (c.product_id = pid ∧
          c.location_id = lid ∧ c.count_date = data.count_date.getD today)) with _ | existing
      · rw [hex] at hok
        simp only [dailyCountInitCheck_fails] at hok
        exact Except.noConfusion hok
      · rw [hex] at hok
        simp only at hok
        rcases hold : existing.calculated_usage with _ | old
        · rw [hold] at hok
          simp only at hok
          exact Except.noConfusion hok
        · rw [hold] at hok
          simp only at hok
          by_cases hdiff : (inventory.quantity - cq) - old ≠ 0
          · rw [if_pos hdiff] at hok
            simp only [stockTransactionInitCheck_fails] at hok
            exact Except.noConfusion hok
          · rw [if_neg hdiff] at hok
            injection hok with h1
            injection h1 with h1a _
            rw [← h1a]
  · intro st req st' s hok
    rcases hfind : findInventory st.inventory req.product_id req.from_location_id with _ | src
    · simp only [stock_transfer, hfind] at hok
      exact TransferResult.noConfusion hok
    · simp only [stock_transfer, hfind] at hok
      by_cases hlt : src.quantity < req.quantity
      · rw [if_pos hlt] at hok
        exact TransferResult.noConfusion hok
      · rw [if_neg hlt] at hok
        rcases hdest : findInventory
            (updateInventory st.inventory req.product_id req.from_location_id
              (src.quantity - req.quantity)) req.product_id req.to_location_id with _ | dest
        · simp only [hdest] at hok
          injection hok with h1
          rw [← h1]
          simp
        · simp only [hdest] at hok
          injection hok with h1
          rw [← h1]
          simp

/-- Witness for `daily_count_and_transfer_table_writes`: a committed
daily-count update leaves `stock_transactions` unchanged, and a successful
transfer appends exactly two transaction rows. -/
theorem daily_count_and_transfer_table_writes_witness :
    (CountState.mk [⟨1, 1, 9⟩]
        [⟨1, ⟨2024, 2, 1⟩, 9, some 2, 1, 1, 1, none, none, none, none⟩]
        []).stock_transactions
      = (CountState.mk [⟨1, 1, 11⟩]
          [⟨1, ⟨2024, 2, 1⟩, 6, some 2, 1, 1, 1, none, none, none, none⟩]
          []).stock_transactions ∧
    (TransferState.mk [⟨2, 1, 5⟩, ⟨2, 3, 2⟩]
        [⟨2, 1, "transfer_out", -2, none, "Transfer to location 3"⟩,
         ⟨2, 3, "transfer_in", 2, none, "Transfer from location 1"⟩]).transactions.length
      = (TransferState.mk [⟨2, 1, 7⟩] []).transactions.length + 2 :=
  ⟨daily_count_and_transfer_table_writes.1
      ⟨[⟨1, 1, 11⟩], [⟨1, ⟨2024, 2, 1⟩, 6, some 2, 1, 1, 1, none, none, none, none⟩], []⟩
      ⟨2024, 2, 1⟩ ⟨some 1, some 1, some 9, some ⟨2024, 2, 1⟩⟩
      ⟨[⟨1, 1, 9⟩], [⟨1, ⟨2024, 2, 1⟩, 9, some 2, 1, 1, 1, none, none, none, none⟩], []⟩
      (.record 200 ⟨1, ⟨2024, 2, 1⟩, 9, some 2, 1, 1, 1, none, none, none, none⟩)
      rfl,
   daily_count_and_transfer_table_writes.2
      ⟨[⟨2, 1, 7⟩], []⟩ ⟨1, 3, 2, 2, none⟩
      ⟨[⟨2, 1, 5⟩, ⟨2, 3, 2⟩],
       [⟨2, 1, "transfer_out", -2, none, "Transfer to location 3"⟩,
        ⟨2, 3, "transfer_in", 2, none, "Transfer from location 1"⟩]⟩
      201 (by decide)⟩

/-- C7 (counterexample): the `record_daily_count` handler contains no
try/except — a request whose JSON body lacks `product_id` makes the handler
raise `KeyError`, which propagates out of the handler instead of being
caught and converted inside it. -/
theorem record_daily_count_propagates_key_error :
    record_daily_count ⟨[], [], []⟩ ⟨2024, 1, 15⟩ ⟨none, none, none, none⟩
      = .error (.keyError "product_id") :=
  rfl

/-- C7 (amended): the cited route handlers (`record_daily_count`,
`create_product`) do not catch exceptions themselves — a missing required
field raises `KeyError` out of the handler in every state — and it is the
application-level `errorhandler(Exception)` registered by
`setup_error_handlers` that converts any exception escaping a handler into
the JSON error `An unexpected error occurred` with status 500, leaving the
state unchanged. -/
theorem uncaught_handler_exceptions_become_json_500 :
    (∀ (st : CountState) (today : Date) (data : DailyCountRequest) (e : PyError),
      record_daily_count st today data = .error e →
      appDispatchDailyCount st today data
        = (st, .jsonError 500 "An unexpected error occurred")) ∧
    (∀ (st : ProductState) (now : DateTime) (data : ProductRequest) (e : PyError),
      create_product st now data = .error e →
      appDispatchCreateProduct st now data
        = (st, .jsonError 500 "An unexpected error occurred")) ∧
    (∀ (st : CountState) (today : Date),
      record_daily_count st today ⟨none, none, none, none⟩
        = .error (.keyError "product_id")) ∧
    (∀ (st : ProductState) (now : DateTime),
      create_product st now ⟨none, none, none, none, none, none, none, none⟩
        = .error (.keyError "sku")) := by
  refine ⟨?_, ?_, fun st today => rfl, fun st now => rfl⟩
  · intro st today data e herr
    rw [appDispatchDailyCount, herr]
  · intro st now data e herr
    rw [appDispatchCreateProduct, herr]

/-- Witness for `uncaught_handler_exceptions_become_json_500`: dispatching a
body with no fields through each wrapped handler yields the 500 JSON error
with the state unchanged. -/
theorem uncaught_handler_exceptions_become_json_500_witness :
    appDispatchDailyCount ⟨[], [], []⟩ ⟨2024, 1, 15⟩ ⟨none, none, none, none⟩
      = (⟨[], [], []⟩, .jsonError 500 "An unexpected error occurred") ∧
    appDispatchCreateProduct ⟨[], 1⟩ ⟨⟨2024, 1, 15⟩, 12, 0, 0⟩
        ⟨none, none, none, none, none, none, none, none⟩
      = (⟨[], 1⟩, .jsonError 500 "An unexpected error occurred") :=
  ⟨uncaught_handler_exceptions_become_json_500.1 ⟨[], [], []⟩ ⟨2024, 1, 15⟩
      ⟨none, none, none, none⟩ (.keyError "product_id") rfl,
   uncaught_handler_exceptions_become_json_500.2.1 ⟨[], 1⟩ ⟨⟨2024, 1, 15⟩, 12, 0, 0⟩
      ⟨none, none, none, none, none, none, none, none⟩ (.keyError "sku") rfl⟩

end KOStock
